import Mathlib

/-
Formal model of the renderer-side unified icon cache module
(icon cache, source/skill icon resolution, SVG theming).

Modelling conventions:
- JavaScript strings are Lean `String`s (sequences of Unicode code
  points); the JavaScript `length` property (UTF-16 code units) is
  modelled by `utf16Length`.
- JavaScript `Map`s are association lists in insertion order
  (`mapGet` / `mapSet` mirror `Map.get` / `Map.set`).
- The external collaborators reached through the privileged-process
  bridge (`window.electronAPI.readWorkspaceImage`,
  `window.electronAPI.getLogoUrl`) and the DOM style accessor are an
  explicit environment record of pure functions; a rejected promise is
  `Except.error`.  Every collaborator invocation is recorded in an
  event trace, and taking the emoji branch is recorded as well so that
  branch-avoidance properties can be stated.
- `async` functions that never reject are total functions returning
  `Option String` (`none` models a resolved `null`).
-/

namespace IconCache

/-- JavaScript truthiness of a `string | null | undefined` value:
`undefined`, `null` and `""` are falsy, every other string is truthy. -/
def truthyOpt : Option String → Bool
  | some s => s != ""
  | none => false

/-- Decidable "is `p` a prefix of `l`" on code-point lists. -/
def isPrefixOfList : List Char → List Char → Bool
  | [], _ => true
  | _ :: _, [] => false
  | p :: ps, c :: cs => p == c && isPrefixOfList ps cs

/-- `String.prototype.startsWith` (also used for cache-key scoping). -/
def strStartsWith (s pre : String) : Bool := isPrefixOfList pre.data s.data

/-- `String.prototype.endsWith`. -/
def strEndsWith (s suffix : String) : Bool :=
  isPrefixOfList suffix.data.reverse s.data.reverse

/-- `Map.get`: the value stored at `k`, or `none` when absent. -/
def mapGet {α : Type} (m : List (String × α)) (k : String) : Option α :=
  (m.find? (fun kv => kv.1 == k)).map Prod.snd

/-- `Map.set`: overwrite in place when the key is present (keeping the
insertion position), otherwise append at the end. -/
def mapSet {α : Type} (m : List (String × α)) (k : String) (v : α) :
    List (String × α) :=
  if m.any (fun kv => kv.1 == k) then
    m.map (fun kv => if kv.1 == k then (k, v) else kv)
  else
    m ++ [(k, v)]

/-- The two process-wide stores: the unified `iconCache`
(`Map<string, string>`, keys `{type}:{workspaceId}:{identifier}`) and
the `logoUrlCache` (`Map<string, string | null>`, keys
`{serviceUrl}:{provider}`; a stored `none` is the negative entry). -/
structure CacheState where
  iconCache : List (String × String)
  logoUrlCache : List (String × Option String)
deriving DecidableEq, Repr

/-- `sourceIconCache.get` (deprecated proxy): unified cache under the
`source:` key prefix. -/
def sourceIconCacheGet (st : CacheState) (key : String) : Option String :=
  mapGet st.iconCache ("source:" ++ key)

/-- `sourceIconCache.set`. -/
def sourceIconCacheSet (st : CacheState) (key value : String) : CacheState :=
  { st with iconCache := mapSet st.iconCache ("source:" ++ key) value }

/-- `skillIconCache.get`: unified cache under the `skill:` key prefix. -/
def skillIconCacheGet (st : CacheState) (key : String) : Option String :=
  mapGet st.iconCache ("skill:" ++ key)

/-- `skillIconCache.set`. -/
def skillIconCacheSet (st : CacheState) (key value : String) : CacheState :=
  { st with iconCache := mapSet st.iconCache ("skill:" ++ key) value }

/-- `logoUrlCache.get`: `none` is "absent" (never queried), while
`some none` is the stored negative entry. -/
def logoUrlCacheGet (st : CacheState) (key : String) : Option (Option String) :=
  mapGet st.logoUrlCache key

/-- `logoUrlCache.set`. -/
def logoUrlCacheSet (st : CacheState) (key : String) (value : Option String) :
    CacheState :=
  { st with logoUrlCache := mapSet st.logoUrlCache key value }

/-- `clearIconCaches()`: clears the unified icon cache and the
logo-URL cache. -/
def clearIconCaches (_ : CacheState) : CacheState := ⟨[], []⟩

/-- `clearSourceIconCaches()`: deletes every `source:`-prefixed entry
of the unified cache and clears the whole logo-URL cache. -/
def clearSourceIconCaches (st : CacheState) : CacheState :=
  ⟨st.iconCache.filter (fun kv => !(strStartsWith kv.1 "source:")), []⟩

/-- `clearSkillIconCaches()`: deletes every `skill:`-prefixed entry of
the unified cache; the logo-URL cache is untouched. -/
def clearSkillIconCaches (st : CacheState) : CacheState :=
  ⟨st.iconCache.filter (fun kv => !(strStartsWith kv.1 "skill:")), st.logoUrlCache⟩

/-- `clearStatusIconCaches()`: deletes every `status:`-prefixed entry
of the unified cache; the logo-URL cache is untouched. -/
def clearStatusIconCaches (st : CacheState) : CacheState :=
  ⟨st.iconCache.filter (fun kv => !(strStartsWith kv.1 "status:")), st.logoUrlCache⟩

/-- One observable step of a resolution run: an I/O collaborator call
(`read` = `readWorkspaceImage`, `logo` = `getLogoUrl`) or the marker
that the emoji branch of `loadSourceIcon` produced the result. -/
inductive Event where
  | read (workspaceId relativePath : String)
  | logo (serviceUrl provider : String)
  | emojiBranch
deriving DecidableEq, Repr

/-- Is the event an I/O collaborator call? -/
def isIOEvent : Event → Bool
  | .emojiBranch => false
  | _ => true

/-- The I/O collaborator calls of a trace. -/
def ioEvents (events : List Event) : List Event := events.filter isIOEvent

/-- The external collaborators (privileged-process bridge and DOM),
out of scope of the module and supplied as pure functions:
`readWorkspaceImage` and `getLogoUrl` mirror `window.electronAPI`
(rejection = `Except.error`); `documentForeground` is the computed
`--foreground` custom property, `none` when `document` is undefined. -/
structure Env where
  readWorkspaceImage : String → String → Except String String
  getLogoUrl : String → String → Except String (Option String)
  documentForeground : Option String

/-- Output of one resolution run: the settled value, the cache state
after the run and the event trace, in order. -/
structure RunOut where
  res : Option String
  st : CacheState
  events : List Event
deriving DecidableEq, Repr

/-- `type`-specific record of a source configuration: `mcp.url`. -/
structure McpConfig where
  url : Option String
deriving DecidableEq, Repr

/-- `type`-specific record of a source configuration: `api.baseUrl`. -/
structure ApiConfig where
  baseUrl : Option String
deriving DecidableEq, Repr

/-- `SourceConfig`: the read-only source configuration record. -/
structure SourceConfig where
  slug : String
  name : String
  type : String
  icon : Option String
  provider : Option String
  mcp : Option McpConfig
  api : Option ApiConfig
deriving DecidableEq, Repr

/-- `SkillConfig`: the read-only skill configuration record. -/
structure SkillConfig where
  slug : String
  iconPath : Option String
deriving DecidableEq, Repr

/-- Is the code point inside one of the closed ranges? -/
def inRanges (ranges : List (Nat × Nat)) (c : Char) : Bool :=
  ranges.any (fun r => decide (r.1 ≤ c.toNat ∧ c.toNat ≤ r.2))

/-- Modelled from the spec: the Unicode `Emoji_Presentation=Yes`
ranges of `emoji-data.txt` (Unicode 15.1), the data behind the
`\p{Emoji_Presentation}` escape of `EMOJI_REGEX`; the table itself is
part of the JavaScript runtime, not of this repository. -/
def emojiPresentationRanges : List (Nat × Nat) :=
  [(0x231A, 0x231B), (0x23E9, 0x23EC), (0x23F0, 0x23F0), (0x23F3, 0x23F3),
   (0x25FD, 0x25FE), (0x2614, 0x2615), (0x2648, 0x2653), (0x267F, 0x267F),
   (0x2693, 0x2693), (0x26A1, 0x26A1), (0x26AA, 0x26AB), (0x26BD, 0x26BE),
   (0x26C4, 0x26C5), (0x26CE, 0x26CE), (0x26D4, 0x26D4), (0x26EA, 0x26EA),
   (0x26F2, 0x26F3), (0x26F5, 0x26F5), (0x26FA, 0x26FA), (0x26FD, 0x26FD),
   (0x2705, 0x2705), (0x270A, 0x270B), (0x2728, 0x2728), (0x274C, 0x274C),
   (0x274E, 0x274E), (0x2753, 0x2755), (0x2757, 0x2757), (0x2795, 0x2797),
   (0x27B0, 0x27B0), (0x27BF, 0x27BF), (0x2B1B, 0x2B1C), (0x2B50, 0x2B50),
   (0x2B55, 0x2B55), (0x1F004, 0x1F004), (0x1F0CF, 0x1F0CF),
   (0x1F18E, 0x1F18E), (0x1F191, 0x1F19A), (0x1F1E6, 0x1F1FF),
   (0x1F201, 0x1F201), (0x1F21A, 0x1F21A), (0x1F22F, 0x1F22F),
   (0x1F232, 0x1F236), (0x1F238, 0x1F23A), (0x1F250, 0x1F251),
   (0x1F300, 0x1F320), (0x1F32D, 0x1F335), (0x1F337, 0x1F37C),
   (0x1F37E, 0x1F393), (0x1F3A0, 0x1F3CA), (0x1F3CF, 0x1F3D3),
   (0x1F3E0, 0x1F3F0), (0x1F3F4, 0x1F3F4), (0x1F3F8, 0x1F43E),
   (0x1F440, 0x1F440), (0x1F442, 0x1F4FC), (0x1F4FF, 0x1F53D),
   (0x1F54B, 0x1F54E), (0x1F550, 0x1F567), (0x1F57A, 0x1F57A),
   (0x1F595, 0x1F596), (0x1F5A4, 0x1F5A4), (0x1F5FB, 0x1F64F),
   (0x1F680, 0x1F6C5), (0x1F6CC, 0x1F6CC), (0x1F6D0, 0x1F6D2),
   (0x1F6D5, 0x1F6D7), (0x1F6DC, 0x1F6DF), (0x1F6EB, 0x1F6EC),
   (0x1F6F4, 0x1F6FC), (0x1F7E0, 0x1F7EB), (0x1F7F0, 0x1F7F0),
   (0x1F90C, 0x1F93A), (0x1F93C, 0x1F945), (0x1F947, 0x1F9FF),
   (0x1FA70, 0x1FA7C), (0x1FA80, 0x1FA88), (0x1FA90, 0x1FABD),
   (0x1FABF, 0x1FAC5), (0x1FACE, 0x1FADB), (0x1FAE0, 0x1FAE8),
   (0x1FAF0, 0x1FAF8)]

/-- Modelled from the spec: the Unicode ranges with `Emoji=Yes` but
`Emoji_Presentation=No` (text-default emoji) of `emoji-data.txt`
(Unicode 15.1), the remaining data behind the `\p{Emoji}` escape of
`EMOJI_REGEX`. -/
def emojiOnlyRanges : List (Nat × Nat) :=
  [(0x23, 0x23), (0x2A, 0x2A), (0x30, 0x39), (0xA9, 0xA9), (0xAE, 0xAE),
   (0x203C, 0x203C), (0x2049, 0x2049), (0x2122, 0x2122), (0x2139, 0x2139),
   (0x2194, 0x2199), (0x21A9, 0x21AA), (0x2328, 0x2328), (0x23CF, 0x23CF),
   (0x23ED, 0x23EF), (0x23F1, 0x23F2), (0x23F8, 0x23FA), (0x24C2, 0x24C2),
   (0x25AA, 0x25AB), (0x25B6, 0x25B6), (0x25C0, 0x25C0), (0x25FB, 0x25FC),
   (0x2600, 0x2604), (0x260E, 0x260E), (0x2611, 0x2611), (0x2618, 0x2618),
   (0x261D, 0x261D), (0x2620, 0x2620), (0x2622, 0x2623), (0x2626, 0x2626),
   (0x262A, 0x262A), (0x262E, 0x262F), (0x2638, 0x263A), (0x2640, 0x2640),
   (0x2642, 0x2642), (0x265F, 0x2660), (0x2663, 0x2663), (0x2665, 0x2666),
   (0x2668, 0x2668), (0x267B, 0x267B), (0x267E, 0x267E), (0x2692, 0x2692),
   (0x2694, 0x2697), (0x2699, 0x2699), (0x269B, 0x269C), (0x26A0, 0x26A0),
   (0x26A7, 0x26A7), (0x26B0, 0x26B1), (0x26C8, 0x26C8), (0x26CF, 0x26CF),
   (0x26D1, 0x26D1), (0x26D3, 0x26D3), (0x26E9, 0x26E9), (0x26F0, 0x26F1),
   (0x26F4, 0x26F4), (0x26F7, 0x26F9), (0x2702, 0x2702), (0x2708, 0x2709),
   (0x270C, 0x270D), (0x270F, 0x270F), (0x2712, 0x2712), (0x2714, 0x2714),
   (0x2716, 0x2716), (0x271D, 0x271D), (0x2721, 0x2721), (0x2733, 0x2734),
   (0x2744, 0x2744), (0x2747, 0x2747), (0x2763, 0x2764), (0x27A1, 0x27A1),
   (0x2934, 0x2935), (0x2B05, 0x2B07), (0x3030, 0x3030), (0x303D, 0x303D),
   (0x3297, 0x3297), (0x3299, 0x3299), (0x1F170, 0x1F171),
   (0x1F17E, 0x1F17F), (0x1F202, 0x1F202), (0x1F237, 0x1F237),
   (0x1F321, 0x1F321), (0x1F324, 0x1F32C), (0x1F336, 0x1F336),
   (0x1F37D, 0x1F37D), (0x1F396, 0x1F397), (0x1F399, 0x1F39B),
   (0x1F39E, 0x1F39F), (0x1F3CB, 0x1F3CE), (0x1F3D4, 0x1F3DF),
   (0x1F3F3, 0x1F3F3), (0x1F3F5, 0x1F3F5), (0x1F3F7, 0x1F3F7),
   (0x1F43F, 0x1F43F), (0x1F441, 0x1F441), (0x1F4FD, 0x1F4FD),
   (0x1F549, 0x1F54A), (0x1F56F, 0x1F570), (0x1F573, 0x1F579),
   (0x1F587, 0x1F587), (0x1F58A, 0x1F58D), (0x1F590, 0x1F590),
   (0x1F5A5, 0x1F5A5), (0x1F5A8, 0x1F5A8), (0x1F5B1, 0x1F5B2),
   (0x1F5BC, 0x1F5BC), (0x1F5C2, 0x1F5C4), (0x1F5D1, 0x1F5D3),
   (0x1F5DC, 0x1F5DE), (0x1F5E1, 0x1F5E1), (0x1F5E3, 0x1F5E3),
   (0x1F5E8, 0x1F5E8), (0x1F5EF, 0x1F5EF), (0x1F5F3, 0x1F5F3),
   (0x1F5FA, 0x1F5FA), (0x1F6CB, 0x1F6CB), (0x1F6CD, 0x1F6CF),
   (0x1F6E0, 0x1F6E5), (0x1F6E9, 0x1F6E9), (0x1F6F0, 0x1F6F0),
   (0x1F6F3, 0x1F6F3)]

/-- `\p{Emoji_Presentation}` for a single code point. -/
def emojiPresProp (c : Char) : Bool := inRanges emojiPresentationRanges c

/-- `\p{Emoji}` for a single code point (the `Emoji_Presentation`
code points together with the text-default emoji). -/
def emojiProp (c : Char) : Bool := emojiPresProp c || inRanges emojiOnlyRanges c

/-- U+FE0F VARIATION SELECTOR-16. -/
def vs16 : Char := Char.ofNat 0xFE0F

/-- U+200D ZERO WIDTH JOINER. -/
def zwj : Char := Char.ofNat 0x200D

/-- Match of the anchored `EMOJI_REGEX`
`^(?:\p{Emoji_Presentation}|\p{Emoji}️)(?:‍(?:\p{Emoji_Presentation}|\p{Emoji}️))*$`
against a code-point list.  `tail = false` expects one unit
(`\p{Emoji_Presentation}` or `\p{Emoji}️`) followed by the tail;
`tail = true` expects the end of input or a U+200D followed by another
unit and tail.  Both alternatives are tried, as the backtracking
engine does. -/
def emojiMatch : Bool → List Char → Bool
  | true, [] => true
  | false, [] => false
  | true, z :: rest => z == zwj && emojiMatch false rest
  | false, c :: rest =>
      (emojiPresProp c && emojiMatch true rest) ||
      (match rest with
       | v :: rest2 => emojiProp c && v == vs16 && emojiMatch true rest2
       | [] => false)

/-- The JavaScript `length` of a string: its number of UTF-16 code
units (code points at or above U+10000 count twice). -/
def utf16Length (s : String) : Nat :=
  s.data.foldl (fun n c => n + (if c.toNat ≥ 0x10000 then 2 else 1)) 0

/-- `isEmoji`: at most 8 UTF-16 code units and a full `EMOJI_REGEX`
match. -/
def isEmoji (str : String) : Bool :=
  decide (utf16Length str ≤ 8) && emojiMatch false str.data

/-- `EMOJI_ICON_PREFIX`, the reserved emoji marker. -/
def emojiIconMarker : String := "emoji:"

/-- `getForegroundColor()`: the computed `--foreground` custom
property, trimmed; `#e3e2e5` when `document` is undefined or the
property is empty. -/
def getForegroundColor (env : Env) : String :=
  match env.documentForeground with
  | none => "#e3e2e5"
  | some raw =>
      let computedColor := raw.trim
      if computedColor = "" then "#e3e2e5" else computedColor

/-- The pattern of the `/currentColor/gi` replacement, lowercased. -/
def ccPattern : List Char := "currentcolor".data

/-- `processed.replace(/currentColor/gi, color)`: every
case-insensitive occurrence is replaced, scanning left to right, the
replacement text not rescanned. -/
def replaceCurrentColor (color : List Char) : List Char → List Char
  | c0 :: c1 :: c2 :: c3 :: c4 :: c5 :: c6 :: c7 :: c8 :: c9 :: c10 :: c11 :: rest =>
      if [c0, c1, c2, c3, c4, c5, c6, c7, c8, c9, c10, c11].map Char.toLower
          = ccPattern then
        color ++ replaceCurrentColor color rest
      else
        c0 :: replaceCurrentColor color
          (c1 :: c2 :: c3 :: c4 :: c5 :: c6 :: c7 :: c8 :: c9 :: c10 :: c11 :: rest)
  | other => other

/-- Attempt of `/<svg([^>]*)>/i` at the head of the list: on success,
the four matched opening characters, the `[^>]*` capture and the
remainder after the `>`. -/
def svgOpenAt : List Char → Option (List Char × List Char × List Char)
  | a :: s :: v :: g :: rest =>
      if a == '<' && s.toLower == 's' && v.toLower == 'v' && g.toLower == 'g' then
        let attrs := rest.takeWhile (fun c => c != '>')
        match rest.dropWhile (fun c => c != '>') with
        | _ :: suffixAfter => some ([a, s, v, g], attrs, suffixAfter)
        | [] => none
      else none
  | _ => none

/-- First match of `/<svg([^>]*)>/i`: the text before the match, the
four matched opening characters, the `[^>]*` capture and the text
after the `>`. -/
def findSvgTag : List Char → Option (List Char × List Char × List Char × List Char)
  | [] => none
  | c :: cs =>
      match svgOpenAt (c :: cs) with
      | some (open4, attrs, suffixAfter) => some ([], open4, attrs, suffixAfter)
      | none =>
          match findSvgTag cs with
          | some (pre, open4, attrs, suffixAfter) =>
              some (c :: pre, open4, attrs, suffixAfter)
          | none => none

/-- A JavaScript `\w` word character (`[A-Za-z0-9_]`). -/
def isWordChar (c : Char) : Bool :=
  (decide ('a' ≤ c) && decide (c ≤ 'z')) || (decide ('A' ≤ c) && decide (c ≤ 'Z'))
    || (decide ('0' ≤ c) && decide (c ≤ '9')) || c == '_'

/-- A JavaScript `\s` whitespace character (the common members). -/
def jsSpace (c : Char) : Bool :=
  c == ' ' || c == '\t' || c == '\n' || c == '\r' || c == Char.ofNat 0x0B
    || c == Char.ofNat 0x0C || c == Char.ofNat 0xA0 || c == Char.ofNat 0xFEFF

/-- Attempt of `fill\s*=` (case-insensitive) at the head of the list. -/
def fillEqAt : List Char → Bool
  | a :: b :: c :: d :: rest =>
      a.toLower == 'f' && b.toLower == 'i' && c.toLower == 'l' && d.toLower == 'l'
        && (match rest.dropWhile jsSpace with
            | e :: _ => e == '='
            | [] => false)
  | _ => false

/-- Search for `/\bfill\s*=/i`; the flag records whether the current
position is a word boundary (start of input or after a non-word
character). -/
def fillSearch : Bool → List Char → Bool
  | _, [] => false
  | atBoundary, c :: cs =>
      (atBoundary && fillEqAt (c :: cs)) || fillSearch (!isWordChar c) cs

/-- `/\bfill\s*=/i.test(attrs)`. -/
def hasFillAttr (attrs : List Char) : Bool := fillSearch true attrs

/-- `themeSvgContent`: substitute every `currentColor`, then inject a
`fill` attribute into the first `<svg ...>` tag unless its attributes
already contain one. -/
def themeSvgContent (env : Env) (svgContent : String)
    (foregroundColor : Option String) : String :=
  let color := foregroundColor.getD (getForegroundColor env)
  let processed := String.mk (replaceCurrentColor color.data svgContent.data)
  match findSvgTag processed.data with
  | none => processed
  | some (pre, _, attrs, suffixAfter) =>
      if hasFillAttr attrs then processed
      else
        String.mk (pre ++ "<svg".data ++ attrs
          ++ (" fill=\"" ++ color ++ "\">").data ++ suffixAfter)

/-- The base64 alphabet used by `btoa`. -/
def base64Alphabet : List Char :=
  "ABCDEFGHIJKLMNOPQRSTUVWXYZabcdefghijklmnopqrstuvwxyz0123456789+/".data

/-- The base64 digit for a 6-bit value. -/
def base64Digit (n : Nat) : Char := base64Alphabet.getD n 'A'

/-- base64 encoding of a byte list, three bytes at a time. -/
def base64Chunks : List Nat → List Char
  | [] => []
  | [b0] => [base64Digit (b0 / 4), base64Digit (b0 % 4 * 16), '=', '=']
  | [b0, b1] =>
      [base64Digit (b0 / 4), base64Digit (b0 % 4 * 16 + b1 / 16),
       base64Digit (b1 % 16 * 4), '=']
  | b0 :: b1 :: b2 :: rest =>
      base64Digit (b0 / 4) :: base64Digit (b0 % 4 * 16 + b1 / 16)
        :: base64Digit (b1 % 16 * 4 + b2 / 64) :: base64Digit (b2 % 64)
        :: base64Chunks rest

/-- `btoa`: base64 of the code points taken as bytes; throws
(`none`) when a code point does not fit in one byte. -/
def btoa (s : String) : Option String :=
  if s.data.all (fun c => decide (c.toNat < 256)) then
    some (String.mk (base64Chunks (s.data.map Char.toNat)))
  else none

/-- `svgToThemedDataUrl`: theme, then base64-encode into a data URL;
`none` models the `btoa` exception escaping to the caller. -/
def svgToThemedDataUrl (env : Env) (svgContent : String)
    (foregroundColor : Option String) : Option String :=
  (btoa (themeSvgContent env svgContent foregroundColor)).map
    (fun b => "data:image/svg+xml;base64," ++ b)

/-- `loadWorkspaceIcon`: one `readWorkspaceImage` call; `.svg` content
is themed and data-URL encoded; any failure (rejected read or `btoa`
throw) is caught and returns `none`. -/
def loadWorkspaceIcon (env : Env) (workspaceId relativePath : String) :
    Option String × List Event :=
  match env.readWorkspaceImage workspaceId relativePath with
  | .error _ => (none, [Event.read workspaceId relativePath])
  | .ok result =>
      if strEndsWith relativePath ".svg" then
        match svgToThemedDataUrl env result none with
        | some url => (some url, [Event.read workspaceId relativePath])
        | none => (none, [Event.read workspaceId relativePath])
      else (some result, [Event.read workspaceId relativePath])

/-- `deriveServiceUrl`: `mcp.url` for truthy-`url` MCP sources,
`api.baseUrl` for truthy-`baseUrl` API sources, otherwise `null`. -/
def deriveServiceUrl (config : SourceConfig) : Option String :=
  if config.type == "mcp" && truthyOpt (config.mcp.bind McpConfig.url) then
    config.mcp.bind McpConfig.url
  else if config.type == "api" && truthyOpt (config.api.bind ApiConfig.baseUrl) then
    config.api.bind ApiConfig.baseUrl
  else none

/-- Priority 5 of `loadSourceIcon`: favicon resolution from the
service URL, with the logo-URL cache consulted first and any
`getLogoUrl` rejection caught, logged and stored as a negative
entry.  (`provider` is `config.slug ?? config.provider`; `slug` is a
required field, so it is always `config.slug`.) -/
def faviconStep (env : Env) (st : CacheState) (config : SourceConfig)
    (cacheKey : String) : RunOut :=
  match deriveServiceUrl config with
  | none => ⟨none, st, []⟩
  | some serviceUrl =>
      if serviceUrl = "" then ⟨none, st, []⟩
      else
        let provider := config.slug
        let logoCacheKey := serviceUrl ++ ":" ++ provider
        match logoUrlCacheGet st logoCacheKey with
        | some cachedLogoUrl =>
            if truthyOpt cachedLogoUrl then
              ⟨cachedLogoUrl,
               sourceIconCacheSet st cacheKey (cachedLogoUrl.getD ""), []⟩
            else ⟨cachedLogoUrl, st, []⟩
        | none =>
            match env.getLogoUrl serviceUrl provider with
            | .ok logoUrl =>
                let st1 := logoUrlCacheSet st logoCacheKey logoUrl
                if truthyOpt logoUrl then
                  ⟨logoUrl, sourceIconCacheSet st1 cacheKey (logoUrl.getD ""),
                   [Event.logo serviceUrl provider]⟩
                else ⟨logoUrl, st1, [Event.logo serviceUrl provider]⟩
            | .error _ =>
                ⟨none, logoUrlCacheSet st logoCacheKey none,
                 [Event.logo serviceUrl provider]⟩

/-- Priorities 3, 4 and 5 of `loadSourceIcon`: auto-discovery of
`sources/{slug}/icon.svg` then `sources/{slug}/icon.png`, then the
favicon fallback. -/
def autoAndFavicon (env : Env) (st : CacheState) (workspaceId : String)
    (config : SourceConfig) (cacheKey : String) : RunOut :=
  let svgLoad := loadWorkspaceIcon env workspaceId
    ("sources/" ++ config.slug ++ "/icon.svg")
  if truthyOpt svgLoad.1 then
    ⟨svgLoad.1, sourceIconCacheSet st cacheKey (svgLoad.1.getD ""), svgLoad.2⟩
  else
    let pngLoad := loadWorkspaceIcon env workspaceId
      ("sources/" ++ config.slug ++ "/icon.png")
    if truthyOpt pngLoad.1 then
      ⟨pngLoad.1, sourceIconCacheSet st cacheKey (pngLoad.1.getD ""),
       svgLoad.2 ++ pngLoad.2⟩
    else
      let r := faviconStep env st config cacheKey
      ⟨r.res, r.st, svgLoad.2 ++ pngLoad.2 ++ r.events⟩

/-- `loadSourceIcon`: the full resolution chain — cache hit, emoji
marker, explicit `./` local path, auto-discovery, favicon fallback. -/
def loadSourceIcon (env : Env) (st : CacheState) (workspaceId : String)
    (config : SourceConfig) : RunOut :=
  let cacheKey := workspaceId ++ ":" ++ config.slug
  let cached := sourceIconCacheGet st cacheKey
  if truthyOpt cached then ⟨cached, st, []⟩
  else if truthyOpt config.icon && isEmoji (config.icon.getD "") then
    let marker := emojiIconMarker ++ config.icon.getD ""
    ⟨some marker, sourceIconCacheSet st cacheKey marker, [Event.emojiBranch]⟩
  else
    match config.icon with
    | some i =>
        if strStartsWith i "./" then
          let relativePath := "sources/" ++ config.slug ++ "/" ++ i.drop 2
          let localLoad := loadWorkspaceIcon env workspaceId relativePath
          if truthyOpt localLoad.1 then
            ⟨localLoad.1, sourceIconCacheSet st cacheKey (localLoad.1.getD ""),
             localLoad.2⟩
          else
            let r := autoAndFavicon env st workspaceId config cacheKey
            ⟨r.res, r.st, localLoad.2 ++ r.events⟩
        else autoAndFavicon env st workspaceId config cacheKey
    | none => autoAndFavicon env st workspaceId config cacheKey

/-- First match of `/skills\/([^/]+)\/(.+)$/` at the head of the list:
the two captures (the slug segment and the remainder up to the end of
input, which may not contain a line terminator). -/
def trySkillsAt (cs : List Char) : Option (List Char × List Char) :=
  if isPrefixOfList "skills/".data cs then
    let rest := cs.drop 7
    let seg := rest.takeWhile (fun c => c != '/')
    match seg, rest.dropWhile (fun c => c != '/') with
    | _ :: _, _ :: tail =>
        if tail ≠ [] ∧ tail.all (fun c =>
            c != '\n' && c != '\r' && c != Char.ofNat 0x2028
              && c != Char.ofNat 0x2029) then
          some (seg, tail)
        else none
    | _, _ => none
  else none

/-- `iconPath.match(/skills\/([^/]+)\/(.+)$/)`: earliest position
wins. -/
def skillsMatch : List Char → Option (List Char × List Char)
  | [] => none
  | c :: cs =>
      match trySkillsAt (c :: cs) with
      | some r => some r
      | none => skillsMatch cs

/-- Condition under which the claim classifies a `loadSkillIcon` call
as failing: no `iconPath`, an `iconPath` not matching the
`skills/{slug}/{remainder}` pattern, or a rejecting file read of the
extracted relative path. -/
def skillResolveFails (env : Env) (skill : SkillConfig)
    (workspaceId : String) : Bool :=
  match skill.iconPath with
  | none => true
  | some p =>
      match skillsMatch p.data with
      | none => true
      | some (seg, tail) =>
          match env.readWorkspaceImage workspaceId
            ("skills/" ++ String.mk seg ++ "/" ++ String.mk tail) with
          | .error _ => true
          | .ok _ => false

/-- `loadSkillIcon`: cache check, pattern extraction, file read,
optional SVG theming, cache write; failures return `null` without
caching. -/
def loadSkillIcon (env : Env) (st : CacheState) (skill : SkillConfig)
    (workspaceId : String) : RunOut :=
  match skill.iconPath with
  | none => ⟨none, st, []⟩
  | some iconPath =>
      let cacheKey := workspaceId ++ ":" ++ skill.slug
      let cached := skillIconCacheGet st cacheKey
      if truthyOpt cached then ⟨cached, st, []⟩
      else
        match skillsMatch iconPath.data with
        | none => ⟨none, st, []⟩
        | some (seg, tail) =>
            let relativePath := "skills/" ++ String.mk seg ++ "/" ++ String.mk tail
            match env.readWorkspaceImage workspaceId relativePath with
            | .error _ => ⟨none, st, [Event.read workspaceId relativePath]⟩
            | .ok result =>
                if strEndsWith relativePath ".svg" then
                  match svgToThemedDataUrl env result none with
                  | some url =>
                      ⟨some url, skillIconCacheSet st cacheKey url,
                       [Event.read workspaceId relativePath]⟩
                  | none => ⟨none, st, [Event.read workspaceId relativePath]⟩
                else
                  ⟨some result, skillIconCacheSet st cacheKey result,
                   [Event.read workspaceId relativePath]⟩

/-- Fixture: an environment in which every file read and every
favicon lookup rejects and `document` is undefined. -/
def env0 : Env :=
  ⟨fun _ _ => Except.error "ENOENT", fun _ _ => Except.error "offline", none⟩

/-- Fixture: both stores empty. -/
def st0 : CacheState := ⟨[], []⟩

theorem mapGet_set_self {α : Type} (m : List (String × α)) (k : String) (v : α) :
    mapGet (mapSet m k v) k = some v := by
  unfold mapSet
  split
  · next h =>
      unfold mapGet
      induction m with
      | nil => simp at h
      | cons kv t ih =>
          simp only [List.any_cons, Bool.or_eq_true] at h
          by_cases hk : (kv.1 == k) = true
          · simp [List.find?, hk, beq_iff_eq]
          · simp only [List.map_cons, if_neg hk]
            rw [List.find?_cons_of_neg _ (by simpa using hk)]
            exact ih (h.resolve_left hk)
  · next h =>
      unfold mapGet
      induction m with
      | nil => simp [List.find?]
      | cons kv t ih =>
          simp only [List.any_cons, Bool.or_eq_true, not_or] at h
          simp only [List.cons_append]
          rw [List.find?_cons_of_neg _ (by simpa using h.1)]
          exact ih (by simpa using h.2)

theorem sourceIconCacheGet_set_self (st : CacheState) (k v : String) :
    sourceIconCacheGet (sourceIconCacheSet st k v) k = some v :=
  mapGet_set_self _ _ _

theorem logoUrlCacheGet_set_self (st : CacheState) (k : String) (v : Option String) :
    logoUrlCacheGet (logoUrlCacheSet st k v) k = some v :=
  mapGet_set_self _ _ _

theorem sourceIconCacheGet_logoSet (st : CacheState) (lk : String)
    (v : Option String) (k : String) :
    sourceIconCacheGet (logoUrlCacheSet st lk v) k = sourceIconCacheGet st k := rfl

theorem find?_filter_of_imp {α : Type} (p q : α → Bool) (l : List α)
    (h : ∀ x, p x = true → q x = true) :
    (l.filter q).find? p = l.find? p := by
  induction l with
  | nil => rfl
  | cons a t ih =>
      by_cases hq : q a = true
      · rw [List.filter_cons_of_pos hq]
        by_cases hp : p a = true
        · rw [List.find?_cons_of_pos _ hp, List.find?_cons_of_pos _ hp]
        · rw [List.find?_cons_of_neg _ (by simpa using hp),
            List.find?_cons_of_neg _ (by simpa using hp), ih]
      · have hp : ¬ p a = true := fun hpa => hq (h a hpa)
        rw [List.filter_cons_of_neg (by simpa using hq),
          List.find?_cons_of_neg _ (by simpa using hp), ih]

theorem isPrefixOfList_source_not_skill (l : List Char)
    (h : isPrefixOfList "source:".data l = true) :
    isPrefixOfList "skill:".data l = false := by
  match l with
  | [] => simp [isPrefixOfList] at h
  | [_] => simp [isPrefixOfList] at h
  | a :: b :: rest =>
      simp only [show ("source:".data) = 's' :: 'o' :: 'u' :: 'r' :: 'c' :: 'e'
          :: ':' :: [] from rfl, isPrefixOfList, Bool.and_eq_true, beq_iff_eq] at h
      obtain ⟨-, hb, -⟩ := h
      simp only [show ("skill:".data) = 's' :: 'k' :: 'i' :: 'l' :: 'l'
          :: ':' :: [] from rfl, isPrefixOfList]
      rw [← hb]
      simp [show (('k' : Char) == 'o') = false from by decide]

theorem strData_append (s t : String) : (s ++ t).data = s.data ++ t.data := by
  cases s; cases t; rfl

theorem emojiMarker_ne_empty (x : String) : (emojiIconMarker ++ x) ≠ "" := by
  intro h
  have h2 := congrArg String.data h
  rw [strData_append] at h2
  rcases List.append_eq_nil.mp h2 with ⟨h3, -⟩
  exact absurd h3 (by decide)

theorem deriveServiceUrl_ne_empty (cfg : SourceConfig) (surl : String)
    (h : deriveServiceUrl cfg = some surl) : surl ≠ "" := by
  unfold deriveServiceUrl at h
  split at h
  · next hc =>
      rw [h] at hc
      simp only [Bool.and_eq_true, truthyOpt, bne_iff_ne, ne_eq,
        decide_eq_true_eq] at hc
      exact hc.2
  · split at h
    · next hc =>
        rw [h] at hc
        simp only [Bool.and_eq_true, truthyOpt, bne_iff_ne, ne_eq,
          decide_eq_true_eq] at hc
        exact hc.2
    · exact absurd h (by simp)

theorem faviconStep_none (env : Env) (st : CacheState) (cfg : SourceConfig)
    (ck : String) (hd : deriveServiceUrl cfg = none) :
    faviconStep env st cfg ck = ⟨none, st, []⟩ := by
  unfold faviconStep
  rw [hd]

theorem faviconStep_stored (env : Env) (st : CacheState) (cfg : SourceConfig)
    (ck : String) (surl : String) (v : Option String)
    (hd : deriveServiceUrl cfg = some surl)
    (hv : logoUrlCacheGet st (surl ++ ":" ++ cfg.slug) = some v) :
    faviconStep env st cfg ck =
      if truthyOpt v then ⟨v, sourceIconCacheSet st ck (v.getD ""), []⟩
      else ⟨v, st, []⟩ := by
  unfold faviconStep
  rw [hd]
  simp only [if_neg (deriveServiceUrl_ne_empty cfg surl hd), hv]

theorem faviconStep_fresh_ok (env : Env) (st : CacheState) (cfg : SourceConfig)
    (ck : String) (surl : String) (u : Option String)
    (hd : deriveServiceUrl cfg = some surl)
    (hv : logoUrlCacheGet st (surl ++ ":" ++ cfg.slug) = none)
    (hu : env.getLogoUrl surl cfg.slug = .ok u) :
    faviconStep env st cfg ck =
      if truthyOpt u then
        ⟨u, sourceIconCacheSet (logoUrlCacheSet st (surl ++ ":" ++ cfg.slug) u)
          ck (u.getD ""), [Event.logo surl cfg.slug]⟩
      else ⟨u, logoUrlCacheSet st (surl ++ ":" ++ cfg.slug) u,
        [Event.logo surl cfg.slug]⟩ := by
  unfold faviconStep
  rw [hd]
  simp only [if_neg (deriveServiceUrl_ne_empty cfg surl hd), hv, hu]

theorem faviconStep_fresh_err (env : Env) (st : CacheState) (cfg : SourceConfig)
    (ck : String) (surl : String) (e : String)
    (hd : deriveServiceUrl cfg = some surl)
    (hv : logoUrlCacheGet st (surl ++ ":" ++ cfg.slug) = none)
    (hu : env.getLogoUrl surl cfg.slug = .error e) :
    faviconStep env st cfg ck =
      ⟨none, logoUrlCacheSet st (surl ++ ":" ++ cfg.slug) none,
       [Event.logo surl cfg.slug]⟩ := by
  unfold faviconStep
  rw [hd]
  simp only [if_neg (deriveServiceUrl_ne_empty cfg surl hd), hv, hu]

theorem autoAndFavicon_svg_hit (env : Env) (st : CacheState)
    (workspaceId : String) (cfg : SourceConfig) (ck : String)
    (h1 : truthyOpt (loadWorkspaceIcon env workspaceId
      ("sources/" ++ cfg.slug ++ "/icon.svg")).1 = true) :
    autoAndFavicon env st workspaceId cfg ck =
      ⟨(loadWorkspaceIcon env workspaceId ("sources/" ++ cfg.slug ++ "/icon.svg")).1,
       sourceIconCacheSet st ck ((loadWorkspaceIcon env workspaceId
         ("sources/" ++ cfg.slug ++ "/icon.svg")).1.getD ""),
       (loadWorkspaceIcon env workspaceId ("sources/" ++ cfg.slug ++ "/icon.svg")).2⟩ := by
  unfold autoAndFavicon
  simp only [h1, if_true]

theorem autoAndFavicon_png_hit (env : Env) (st : CacheState)
    (workspaceId : String) (cfg : SourceConfig) (ck : String)
    (h1 : truthyOpt (loadWorkspaceIcon env workspaceId
      ("sources/" ++ cfg.slug ++ "/icon.svg")).1 = false)
    (h2 : truthyOpt (loadWorkspaceIcon env workspaceId
      ("sources/" ++ cfg.slug ++ "/icon.png")).1 = true) :
    autoAndFavicon env st workspaceId cfg ck =
      ⟨(loadWorkspaceIcon env workspaceId ("sources/" ++ cfg.slug ++ "/icon.png")).1,
       sourceIconCacheSet st ck ((loadWorkspaceIcon env workspaceId
         ("sources/" ++ cfg.slug ++ "/icon.png")).1.getD ""),
       (loadWorkspaceIcon env workspaceId ("sources/" ++ cfg.slug ++ "/icon.svg")).2
         ++ (loadWorkspaceIcon env workspaceId
           ("sources/" ++ cfg.slug ++ "/icon.png")).2⟩ := by
  unfold autoAndFavicon
  simp only [h1, h2, if_true, Bool.false_eq_true, if_false]

theorem autoAndFavicon_fall (env : Env) (st : CacheState)
    (workspaceId : String) (cfg : SourceConfig) (ck : String)
    (h1 : truthyOpt (loadWorkspaceIcon env workspaceId
      ("sources/" ++ cfg.slug ++ "/icon.svg")).1 = false)
    (h2 : truthyOpt (loadWorkspaceIcon env workspaceId
      ("sources/" ++ cfg.slug ++ "/icon.png")).1 = false) :
    autoAndFavicon env st workspaceId cfg ck =
      ⟨(faviconStep env st cfg ck).res, (faviconStep env st cfg ck).st,
       (loadWorkspaceIcon env workspaceId ("sources/" ++ cfg.slug ++ "/icon.svg")).2
         ++ (loadWorkspaceIcon env workspaceId
           ("sources/" ++ cfg.slug ++ "/icon.png")).2
         ++ (faviconStep env st cfg ck).events⟩ := by
  unfold autoAndFavicon
  simp only [h1, h2, Bool.false_eq_true, if_false]

theorem loadSourceIcon_hit (env : Env) (st : CacheState) (workspaceId : String)
    (cfg : SourceConfig) (v : String)
    (hv : sourceIconCacheGet st (workspaceId ++ ":" ++ cfg.slug) = some v)
    (hne : v ≠ "") :
    loadSourceIcon env st workspaceId cfg = ⟨some v, st, []⟩ := by
  unfold loadSourceIcon
  simp only [hv]
  rw [if_pos (show truthyOpt (some v) = true by simp [truthyOpt, hne])]

theorem loadSourceIcon_emoji (env : Env) (st : CacheState) (workspaceId : String)
    (cfg : SourceConfig) (i : String)
    (h0 : truthyOpt (sourceIconCacheGet st (workspaceId ++ ":" ++ cfg.slug)) = false)
    (hi : cfg.icon = some i) (he : isEmoji i = true) (hne : i ≠ "") :
    loadSourceIcon env st workspaceId cfg =
      ⟨some (emojiIconMarker ++ i),
       sourceIconCacheSet st (workspaceId ++ ":" ++ cfg.slug) (emojiIconMarker ++ i),
       [Event.emojiBranch]⟩ := by
  unfold loadSourceIcon
  simp only [h0, Bool.false_eq_true, if_false, hi, Option.getD_some, he,
    Bool.and_true]
  rw [if_pos (show truthyOpt (some i) = true by simp [truthyOpt, hne])]

theorem loadSourceIcon_auto_of_none (env : Env) (st : CacheState)
    (workspaceId : String) (cfg : SourceConfig)
    (h0 : truthyOpt (sourceIconCacheGet st (workspaceId ++ ":" ++ cfg.slug)) = false)
    (hi : cfg.icon = none) :
    loadSourceIcon env st workspaceId cfg =
      autoAndFavicon env st workspaceId cfg (workspaceId ++ ":" ++ cfg.slug) := by
  unfold loadSourceIcon
  simp only [h0, Bool.false_eq_true, if_false, hi]
  rw [if_neg (by simp [truthyOpt])]

theorem loadSourceIcon_auto_of_url (env : Env) (st : CacheState)
    (workspaceId : String) (cfg : SourceConfig) (i : String)
    (h0 : truthyOpt (sourceIconCacheGet st (workspaceId ++ ":" ++ cfg.slug)) = false)
    (hi : cfg.icon = some i) (he : isEmoji i = false)
    (hdot : strStartsWith i "./" = false) :
    loadSourceIcon env st workspaceId cfg =
      autoAndFavicon env st workspaceId cfg (workspaceId ++ ":" ++ cfg.slug) := by
  unfold loadSourceIcon
  simp only [h0, Bool.false_eq_true, if_false, hi, Option.getD_some, he,
    Bool.and_false, hdot]

theorem loadSourceIcon_local_hit (env : Env) (st : CacheState)
    (workspaceId : String) (cfg : SourceConfig) (i : String)
    (h0 : truthyOpt (sourceIconCacheGet st (workspaceId ++ ":" ++ cfg.slug)) = false)
    (hi : cfg.icon = some i) (he : isEmoji i = false)
    (hdot : strStartsWith i "./" = true)
    (hl : truthyOpt (loadWorkspaceIcon env workspaceId
      ("sources/" ++ cfg.slug ++ "/" ++ i.drop 2)).1 = true) :
    loadSourceIcon env st workspaceId cfg =
      ⟨(loadWorkspaceIcon env workspaceId ("sources/" ++ cfg.slug ++ "/" ++ i.drop 2)).1,
       sourceIconCacheSet st (workspaceId ++ ":" ++ cfg.slug)
         ((loadWorkspaceIcon env workspaceId
           ("sources/" ++ cfg.slug ++ "/" ++ i.drop 2)).1.getD ""),
       (loadWorkspaceIcon env workspaceId
         ("sources/" ++ cfg.slug ++ "/" ++ i.drop 2)).2⟩ := by
  unfold loadSourceIcon
  simp only [h0, Bool.false_eq_true, if_false, hi, Option.getD_some, he,
    Bool.and_false, hdot, if_true, hl]

theorem loadSourceIcon_local_miss (env : Env) (st : CacheState)
    (workspaceId : String) (cfg : SourceConfig) (i : String)
    (h0 : truthyOpt (sourceIconCacheGet st (workspaceId ++ ":" ++ cfg.slug)) = false)
    (hi : cfg.icon = some i) (he : isEmoji i = false)
    (hdot : strStartsWith i "./" = true)
    (hl : truthyOpt (loadWorkspaceIcon env workspaceId
      ("sources/" ++ cfg.slug ++ "/" ++ i.drop 2)).1 = false) :
    loadSourceIcon env st workspaceId cfg =
      ⟨(autoAndFavicon env st workspaceId cfg (workspaceId ++ ":" ++ cfg.slug)).res,
       (autoAndFavicon env st workspaceId cfg (workspaceId ++ ":" ++ cfg.slug)).st,
       (loadWorkspaceIcon env workspaceId
         ("sources/" ++ cfg.slug ++ "/" ++ i.drop 2)).2
         ++ (autoAndFavicon env st workspaceId cfg
           (workspaceId ++ ":" ++ cfg.slug)).events⟩ := by
  unfold loadSourceIcon
  simp only [h0, Bool.false_eq_true, if_false, hi, Option.getD_some, he,
    Bool.and_false, hdot, if_true, hl]

theorem truthyOpt_some (v : Option String) (h : truthyOpt v = true) :
    ∃ w, v = some w ∧ w ≠ "" := by
  cases v with
  | none => simp [truthyOpt] at h
  | some w => exact ⟨w, rfl, by simpa [truthyOpt] using h⟩

theorem faviconStep_truthy_cached (env : Env) (st : CacheState)
    (cfg : SourceConfig) (ck : String)
    (h : truthyOpt (faviconStep env st cfg ck).res = true) :
    sourceIconCacheGet (faviconStep env st cfg ck).st ck =
      (faviconStep env st cfg ck).res := by
  rcases hd : deriveServiceUrl cfg with - | surl
  · rw [faviconStep_none env st cfg ck hd] at h
    simp [truthyOpt] at h
  · rcases hv : logoUrlCacheGet st (surl ++ ":" ++ cfg.slug) with - | v
    · rcases hu : env.getLogoUrl surl cfg.slug with e | u
      · rw [faviconStep_fresh_err env st cfg ck surl e hd hv hu] at h
        simp [truthyOpt] at h
      · rw [faviconStep_fresh_ok env st cfg ck surl u hd hv hu] at h ⊢
        by_cases ht : truthyOpt u = true
        · obtain ⟨w, rfl, -⟩ := truthyOpt_some u ht
          simp only [ht, if_true, Option.getD_some]
          exact sourceIconCacheGet_set_self _ _ _
        · rw [if_neg ht] at h
          exact absurd h ht
    · rw [faviconStep_stored env st cfg ck surl v hd hv] at h ⊢
      by_cases ht : truthyOpt v = true
      · obtain ⟨w, rfl, -⟩ := truthyOpt_some v ht
        simp only [ht, if_true, Option.getD_some]
        exact sourceIconCacheGet_set_self _ _ _
      · rw [if_neg ht] at h
        exact absurd h ht

theorem faviconStep_nontruthy_idem (env : Env) (st : CacheState)
    (cfg : SourceConfig) (ck : String)
    (h : truthyOpt (faviconStep env st cfg ck).res = false) :
    (faviconStep env st cfg ck).st.iconCache = st.iconCache ∧
    (faviconStep env (faviconStep env st cfg ck).st cfg ck).res =
      (faviconStep env st cfg ck).res := by
  rcases hd : deriveServiceUrl cfg with - | surl
  · rw [faviconStep_none env st cfg ck hd]
    refine ⟨rfl, ?_⟩
    show (faviconStep env st cfg ck).res = none
    rw [faviconStep_none env st cfg ck hd]
  · rcases hv : logoUrlCacheGet st (surl ++ ":" ++ cfg.slug) with - | v
    · rcases hu : env.getLogoUrl surl cfg.slug with e | u
      · rw [faviconStep_fresh_err env st cfg ck surl e hd hv hu]
        refine ⟨rfl, ?_⟩
        rw [faviconStep_stored env _ cfg ck surl none hd
          (logoUrlCacheGet_set_self st (surl ++ ":" ++ cfg.slug) none)]
        simp [truthyOpt]
      · rw [faviconStep_fresh_ok env st cfg ck surl u hd hv hu] at h ⊢
        by_cases ht : truthyOpt u = true
        · rw [if_pos ht] at h
          exact absurd h (by simp [ht])
        · rw [if_neg ht] at h ⊢
          refine ⟨rfl, ?_⟩
          rw [faviconStep_stored env _ cfg ck surl u hd
            (logoUrlCacheGet_set_self st (surl ++ ":" ++ cfg.slug) u), if_neg ht]
    · rw [faviconStep_stored env st cfg ck surl v hd hv] at h ⊢
      by_cases ht : truthyOpt v = true
      · rw [if_pos ht] at h
        exact absurd h (by simp [ht])
      · rw [if_neg ht] at h ⊢
        refine ⟨rfl, ?_⟩
        rw [faviconStep_stored env st cfg ck surl v hd hv, if_neg ht]

theorem autoAndFavicon_truthy_cached (env : Env) (st : CacheState)
    (workspaceId : String) (cfg : SourceConfig) (ck : String)
    (h : truthyOpt (autoAndFavicon env st workspaceId cfg ck).res = true) :
    sourceIconCacheGet (autoAndFavicon env st workspaceId cfg ck).st ck =
      (autoAndFavicon env st workspaceId cfg ck).res := by
  by_cases h1 : truthyOpt (loadWorkspaceIcon env workspaceId
      ("sources/" ++ cfg.slug ++ "/icon.svg")).1 = true
  · rw [autoAndFavicon_svg_hit env st workspaceId cfg ck h1]
    obtain ⟨w, hw, -⟩ := truthyOpt_some _ h1
    rw [hw]
    simp only [Option.getD_some]
    exact sourceIconCacheGet_set_self _ _ _
  · rw [Bool.not_eq_true] at h1
    by_cases h2 : truthyOpt (loadWorkspaceIcon env workspaceId
        ("sources/" ++ cfg.slug ++ "/icon.png")).1 = true
    · rw [autoAndFavicon_png_hit env st workspaceId cfg ck h1 h2]
      obtain ⟨w, hw, -⟩ := truthyOpt_some _ h2
      rw [hw]
      simp only [Option.getD_some]
      exact sourceIconCacheGet_set_self _ _ _
    · rw [Bool.not_eq_true] at h2
      rw [autoAndFavicon_fall env st workspaceId cfg ck h1 h2] at h ⊢
      exact faviconStep_truthy_cached env st cfg ck h

theorem autoAndFavicon_nontruthy_idem (env : Env) (st : CacheState)
    (workspaceId : String) (cfg : SourceConfig) (ck : String)
    (h : truthyOpt (autoAndFavicon env st workspaceId cfg ck).res = false) :
    (autoAndFavicon env st workspaceId cfg ck).st.iconCache = st.iconCache ∧
    (autoAndFavicon env (autoAndFavicon env st workspaceId cfg ck).st
      workspaceId cfg ck).res =
      (autoAndFavicon env st workspaceId cfg ck).res := by
  by_cases h1 : truthyOpt (loadWorkspaceIcon env workspaceId
      ("sources/" ++ cfg.slug ++ "/icon.svg")).1 = true
  · rw [autoAndFavicon_svg_hit env st workspaceId cfg ck h1] at h
    exact absurd h (by simp [h1])
  · rw [Bool.not_eq_true] at h1
    by_cases h2 : truthyOpt (loadWorkspaceIcon env workspaceId
        ("sources/" ++ cfg.slug ++ "/icon.png")).1 = true
    · rw [autoAndFavicon_png_hit env st workspaceId cfg ck h1 h2] at h
      exact absurd h (by simp [h2])
    · rw [Bool.not_eq_true] at h2
      rw [autoAndFavicon_fall env st workspaceId cfg ck h1 h2] at h ⊢
      obtain ⟨hic, hres⟩ := faviconStep_nontruthy_idem env st cfg ck h
      refine ⟨hic, ?_⟩
      rw [autoAndFavicon_fall env _ workspaceId cfg ck h1 h2]
      exact hres

theorem loadSourceIcon_truthy_cached (env : Env) (st : CacheState)
    (workspaceId : String) (cfg : SourceConfig)
    (h : truthyOpt (loadSourceIcon env st workspaceId cfg).res = true) :
    sourceIconCacheGet (loadSourceIcon env st workspaceId cfg).st
      (workspaceId ++ ":" ++ cfg.slug) =
      (loadSourceIcon env st workspaceId cfg).res := by
  by_cases h0 : truthyOpt (sourceIconCacheGet st
      (workspaceId ++ ":" ++ cfg.slug)) = true
  · obtain ⟨w, hw, hne⟩ := truthyOpt_some _ h0
    rw [loadSourceIcon_hit env st workspaceId cfg w hw hne]
    exact hw
  · rw [Bool.not_eq_true] at h0
    rcases hi : cfg.icon with - | i
    · rw [loadSourceIcon_auto_of_none env st workspaceId cfg h0 hi] at h ⊢
      exact autoAndFavicon_truthy_cached env st workspaceId cfg _ h
    · by_cases he : isEmoji i = true
      · by_cases hne : i = ""
        · subst hne
          rw [show isEmoji "" = false from by decide] at he
          exact absurd he (by simp)
        · rw [loadSourceIcon_emoji env st workspaceId cfg i h0 hi he hne]
          exact sourceIconCacheGet_set_self _ _ _
      · rw [Bool.not_eq_true] at he
        by_cases hdot : strStartsWith i "./" = true
        · by_cases hl : truthyOpt (loadWorkspaceIcon env workspaceId
              ("sources/" ++ cfg.slug ++ "/" ++ i.drop 2)).1 = true
          · rw [loadSourceIcon_local_hit env st workspaceId cfg i h0 hi he hdot hl]
            obtain ⟨w, hw, -⟩ := truthyOpt_some _ hl
            rw [hw]
            simp only [Option.getD_some]
            exact sourceIconCacheGet_set_self _ _ _
          · rw [Bool.not_eq_true] at hl
            rw [loadSourceIcon_local_miss env st workspaceId cfg i h0 hi he hdot hl] at h ⊢
            exact autoAndFavicon_truthy_cached env st workspaceId cfg _ h
        · rw [Bool.not_eq_true] at hdot
          rw [loadSourceIcon_auto_of_url env st workspaceId cfg i h0 hi he hdot] at h ⊢
          exact autoAndFavicon_truthy_cached env st workspaceId cfg _ h

theorem loadSourceIcon_nontruthy_idem (env : Env) (st : CacheState)
    (workspaceId : String) (cfg : SourceConfig)
    (h : truthyOpt (loadSourceIcon env st workspaceId cfg).res = false) :
    (loadSourceIcon env (loadSourceIcon env st workspaceId cfg).st
      workspaceId cfg).res = (loadSourceIcon env st workspaceId cfg).res := by
  by_cases h0 : truthyOpt (sourceIconCacheGet st
      (workspaceId ++ ":" ++ cfg.slug)) = true
  · obtain ⟨w, hw, hne⟩ := truthyOpt_some _ h0
    rw [loadSourceIcon_hit env st workspaceId cfg w hw hne] at h
    simp [truthyOpt, hne] at h
  · rw [Bool.not_eq_true] at h0
    rcases hi : cfg.icon with - | i
    · rw [loadSourceIcon_auto_of_none env st workspaceId cfg h0 hi] at h ⊢
      obtain ⟨hic, hres⟩ := autoAndFavicon_nontruthy_idem env st workspaceId cfg _ h
      have h0' : truthyOpt (sourceIconCacheGet
          (autoAndFavicon env st workspaceId cfg
            (workspaceId ++ ":" ++ cfg.slug)).st
          (workspaceId ++ ":" ++ cfg.slug)) = false := by
        unfold sourceIconCacheGet
        rw [hic]
        exact h0
      rw [loadSourceIcon_auto_of_none env _ workspaceId cfg h0' hi]
      exact hres
    · by_cases he : isEmoji i = true
      · by_cases hne : i = ""
        · subst hne
          rw [show isEmoji "" = false from by decide] at he
          exact absurd he (by simp)
        · rw [loadSourceIcon_emoji env st workspaceId cfg i h0 hi he hne] at h
          simp [truthyOpt, emojiMarker_ne_empty i] at h
      · rw [Bool.not_eq_true] at he
        by_cases hdot : strStartsWith i "./" = true
        · by_cases hl : truthyOpt (loadWorkspaceIcon env workspaceId
              ("sources/" ++ cfg.slug ++ "/" ++ i.drop 2)).1 = true
          · rw [loadSourceIcon_local_hit env st workspaceId cfg i h0 hi he hdot hl] at h
            exact absurd h (by simp [hl])
          · rw [Bool.not_eq_true] at hl
            rw [loadSourceIcon_local_miss env st workspaceId cfg i h0 hi he hdot hl] at h ⊢
            simp only at h ⊢
            obtain ⟨hic, hres⟩ := autoAndFavicon_nontruthy_idem env st workspaceId cfg _ h
            have h0' : truthyOpt (sourceIconCacheGet
                (autoAndFavicon env st workspaceId cfg
                  (workspaceId ++ ":" ++ cfg.slug)).st
                (workspaceId ++ ":" ++ cfg.slug)) = false := by
              unfold sourceIconCacheGet
              rw [hic]
              exact h0
            rw [loadSourceIcon_local_miss env _ workspaceId cfg i h0' hi he hdot hl]
            exact hres
        · rw [Bool.not_eq_true] at hdot
          rw [loadSourceIcon_auto_of_url env st workspaceId cfg i h0 hi he hdot] at h ⊢
          obtain ⟨hic, hres⟩ := autoAndFavicon_nontruthy_idem env st workspaceId cfg _ h
          have h0' : truthyOpt (sourceIconCacheGet
              (autoAndFavicon env st workspaceId cfg
                (workspaceId ++ ":" ++ cfg.slug)).st
              (workspaceId ++ ":" ++ cfg.slug)) = false := by
            unfold sourceIconCacheGet
            rw [hic]
            exact h0
          rw [loadSourceIcon_auto_of_url env _ workspaceId cfg i h0' hi he hdot]
          exact hres

theorem emojiBranch_not_in_loadWorkspaceIcon (env : Env) (w p : String) :
    Event.emojiBranch ∉ (loadWorkspaceIcon env w p).2 := by
  unfold loadWorkspaceIcon
  repeat' split
  all_goals simp

theorem emojiBranch_not_in_faviconStep (env : Env) (st : CacheState)
    (cfg : SourceConfig) (ck : String) :
    Event.emojiBranch ∉ (faviconStep env st cfg ck).events := by
  rcases hd : deriveServiceUrl cfg with - | surl
  · rw [faviconStep_none env st cfg ck hd]
    simp
  · rcases hv : logoUrlCacheGet st (surl ++ ":" ++ cfg.slug) with - | v
    · rcases hu : env.getLogoUrl surl cfg.slug with e | u
      · rw [faviconStep_fresh_err env st cfg ck surl e hd hv hu]
        simp
      · rw [faviconStep_fresh_ok env st cfg ck surl u hd hv hu]
        by_cases ht : truthyOpt u = true
        · rw [if_pos ht]; simp
        · rw [if_neg ht]; simp
    · rw [faviconStep_stored env st cfg ck surl v hd hv]
      by_cases ht : truthyOpt v = true
      · rw [if_pos ht]; simp
      · rw [if_neg ht]; simp

theorem emojiBranch_not_in_autoAndFavicon (env : Env) (st : CacheState)
    (workspaceId : String) (cfg : SourceConfig) (ck : String) :
    Event.emojiBranch ∉ (autoAndFavicon env st workspaceId cfg ck).events := by
  by_cases h1 : truthyOpt (loadWorkspaceIcon env workspaceId
      ("sources/" ++ cfg.slug ++ "/icon.svg")).1 = true
  · rw [autoAndFavicon_svg_hit env st workspaceId cfg ck h1]
    exact emojiBranch_not_in_loadWorkspaceIcon env workspaceId _
  · rw [Bool.not_eq_true] at h1
    by_cases h2 : truthyOpt (loadWorkspaceIcon env workspaceId
        ("sources/" ++ cfg.slug ++ "/icon.png")).1 = true
    · rw [autoAndFavicon_png_hit env st workspaceId cfg ck h1 h2]
      simp only [List.mem_append, RunOut.events]
      rintro (h' | h')
      · exact emojiBranch_not_in_loadWorkspaceIcon env workspaceId _ h'
      · exact emojiBranch_not_in_loadWorkspaceIcon env workspaceId _ h'
    · rw [Bool.not_eq_true] at h2
      rw [autoAndFavicon_fall env st workspaceId cfg ck h1 h2]
      simp only [List.mem_append, RunOut.events]
      rintro ((h' | h') | h')
      · exact emojiBranch_not_in_loadWorkspaceIcon env workspaceId _ h'
      · exact emojiBranch_not_in_loadWorkspaceIcon env workspaceId _ h'
      · exact emojiBranch_not_in_faviconStep env st cfg ck h'

theorem loadSourceIcon_emojiBranch_mem (env : Env) (st : CacheState)
    (workspaceId : String) (cfg : SourceConfig)
    (h : Event.emojiBranch ∈ (loadSourceIcon env st workspaceId cfg).events) :
    isEmoji (cfg.icon.getD "") = true := by
  by_cases h0 : truthyOpt (sourceIconCacheGet st
      (workspaceId ++ ":" ++ cfg.slug)) = true
  · obtain ⟨w, hw, hne⟩ := truthyOpt_some _ h0
    rw [loadSourceIcon_hit env st workspaceId cfg w hw hne] at h
    simp at h
  · rw [Bool.not_eq_true] at h0
    rcases hi : cfg.icon with - | i
    · rw [loadSourceIcon_auto_of_none env st workspaceId cfg h0 hi] at h
      exact absurd h (emojiBranch_not_in_autoAndFavicon env st workspaceId cfg _)
    · simp only [Option.getD_some]
      by_cases he : isEmoji i = true
      · exact he
      · rw [Bool.not_eq_true] at he
        exfalso
        by_cases hdot : strStartsWith i "./" = true
        · by_cases hl : truthyOpt (loadWorkspaceIcon env workspaceId
              ("sources/" ++ cfg.slug ++ "/" ++ i.drop 2)).1 = true
          · rw [loadSourceIcon_local_hit env st workspaceId cfg i h0 hi he hdot hl] at h
            exact emojiBranch_not_in_loadWorkspaceIcon env workspaceId _ h
          · rw [Bool.not_eq_true] at hl
            rw [loadSourceIcon_local_miss env st workspaceId cfg i h0 hi he hdot hl] at h
            simp only [List.mem_append, RunOut.events] at h
            rcases h with h' | h'
            · exact emojiBranch_not_in_loadWorkspaceIcon env workspaceId _ h'
            · exact emojiBranch_not_in_autoAndFavicon env st workspaceId cfg _ h'
        · rw [Bool.not_eq_true] at hdot
          rw [loadSourceIcon_auto_of_url env st workspaceId cfg i h0 hi he hdot] at h
          exact emojiBranch_not_in_autoAndFavicon env st workspaceId cfg _ h

/-- Fixture: a source configured with the U+1F1FA U+1F1F8 flag
sequence (a single emoji grapheme cluster of 4 UTF-16 code units). -/
def cfgFlag : SourceConfig := ⟨"x", "x", "local", some "🇺🇸", none, none, none⟩

/-- Fixture: a source with no configured icon and no service URL. -/
def cfgPlain : SourceConfig := ⟨"x", "x", "local", none, none, none, none⟩

/-- Fixture: a source configured with a single-code-point emoji. -/
def cfgFire : SourceConfig := ⟨"f", "f", "local", some "🔥", none, none, none⟩

/-- Fixture: a source configured with a short non-emoji icon string. -/
def cfgAb : SourceConfig := ⟨"a", "a", "local", some "ab", none, none, none⟩

/-- Fixture: a source whose icon is a remote URL. -/
def cfgUrl : SourceConfig :=
  ⟨"u", "u", "local", some "https://example.com/icon.png", none, none, none⟩

/-- Fixture: an MCP source with a service URL. -/
def cfgMcp : SourceConfig :=
  ⟨"linear", "Linear", "mcp", none, none, some ⟨some "https://api.linear.app"⟩, none⟩

/-- Fixture: an API source with a base URL. -/
def cfgApi : SourceConfig :=
  ⟨"a", "a", "api", none, none, none, some ⟨some "https://api.example.com"⟩⟩

/-- Fixture: a local-type source (no service URL derivable). -/
def cfgLocal : SourceConfig := ⟨"l", "l", "local", none, none, none, none⟩

/-- Fixture: a skill with a well-formed absolute icon path. -/
def skillW : SkillConfig := ⟨"s", some "/abs/skills/a/icon.svg"⟩

/-- Fixture: a state with one `source:` icon entry and one logo-URL
entry. -/
def stBoth : CacheState :=
  ⟨[("source:w:x", "https://logo")], [("https://a:x", some "https://logo")]⟩

/-- Fixture: a state with a `source:` and a `skill:` icon entry and a
negative logo-URL entry. -/
def stW5 : CacheState :=
  ⟨[("source:a:b", "u"), ("skill:a:c", "v")], [("k", none)]⟩

/-- Claim C1: the claim (and the comment above `EMOJI_REGEX`) says a
single emoji grapheme cluster of at most 8 UTF-16 code units —
explicitly including flag sequences — is wrapped in the emoji marker,
cached and returned with no I/O.  The code disagrees: `EMOJI_REGEX`
only accepts U+200D-joined unit sequences, so the flag `🇺🇸` (two
regional-indicator code points, 4 UTF-16 units, no joiner) fails
`isEmoji`, and resolution falls through to the file probes: the run
returns `null`, caches nothing, and performs two file reads. -/
theorem loadSourceIcon_flag_eval :
    isEmoji "🇺🇸" = false ∧ utf16Length "🇺🇸" = 4 ∧
    loadSourceIcon env0 st0 "w" cfgFlag =
      ⟨none, st0, [Event.read "w" "sources/x/icon.svg",
                   Event.read "w" "sources/x/icon.png"]⟩ := by
  refine ⟨by decide, by decide, by decide⟩

/-- Claim C2 counterexample: for a source with no icon and no service
URL, the first call returns `null` and stores nothing in the icon
cache, so the second call with identical inputs performs the two
file-read I/O collaborator calls again — not zero. -/
theorem loadSourceIcon_second_call_reads_cex :
    (loadSourceIcon env0 st0 "w" cfgPlain).res = none ∧
    ioEvents (loadSourceIcon env0 (loadSourceIcon env0 st0 "w" cfgPlain).st
        "w" cfgPlain).events =
      [Event.read "w" "sources/x/icon.svg",
       Event.read "w" "sources/x/icon.png"] := by
  refine ⟨by decide, by decide⟩

/-- Claim C2 (amended): calling `loadSourceIcon` twice with identical
inputs returns bit-identical results; the second call performs zero
I/O collaborator calls whenever the first call resolved a truthy
(non-null, non-empty) icon.  (When the first call resolved `null`,
only the favicon lookup is negatively cached and the local file-read
probes are repeated.) -/
theorem loadSourceIcon_idempotent (env : Env) (st : CacheState)
    (workspaceId : String) (cfg : SourceConfig) :
    (loadSourceIcon env (loadSourceIcon env st workspaceId cfg).st
        workspaceId cfg).res = (loadSourceIcon env st workspaceId cfg).res ∧
    (truthyOpt (loadSourceIcon env st workspaceId cfg).res = true →
      ioEvents (loadSourceIcon env (loadSourceIcon env st workspaceId cfg).st
        workspaceId cfg).events = []) := by
  by_cases ht : truthyOpt (loadSourceIcon env st workspaceId cfg).res = true
  · obtain ⟨w, hw, hne⟩ := truthyOpt_some _ ht
    have hc := loadSourceIcon_truthy_cached env st workspaceId cfg ht
    rw [hw] at hc
    have h2 := loadSourceIcon_hit env (loadSourceIcon env st workspaceId cfg).st
      workspaceId cfg w hc hne
    rw [h2, hw]
    exact ⟨rfl, fun _ => rfl⟩
  · rw [Bool.not_eq_true] at ht
    refine ⟨loadSourceIcon_nontruthy_idem env st workspaceId cfg ht, fun htt => ?_⟩
    rw [htt] at ht
    exact absurd ht (by simp)

/-- Claim C2 witness: an emoji-configured source resolves on the first
call, and the second call returns the identical result with zero I/O. -/
theorem loadSourceIcon_idempotent_witness :
    (loadSourceIcon env0 (loadSourceIcon env0 st0 "w" cfgFire).st
        "w" cfgFire).res = (loadSourceIcon env0 st0 "w" cfgFire).res ∧
    ioEvents (loadSourceIcon env0 (loadSourceIcon env0 st0 "w" cfgFire).st
      "w" cfgFire).events = [] := by
  have h := loadSourceIcon_idempotent env0 st0 "w" cfgFire
  exact ⟨h.1, h.2 (by decide)⟩

/-- Claim C3 counterexample: the claim's expected output for theming
`<svg><path fill="currentColor"/></svg>` with `#ff0000` omits the fill
attribute the code injects into the root tag (the root tag has no fill
attribute of its own, so the injection rule fires). -/
theorem themeSvgContent_claimed_output_cex :
    themeSvgContent env0 "<svg><path fill=\"currentColor\"/></svg>"
        (some "#ff0000") ≠ "<svg><path fill=\"#ff0000\"/></svg>" := by
  decide

/-- Claim C3 (amended): theming `<svg><path fill="currentColor"/></svg>`
with `#ff0000` substitutes every `currentColor` occurrence and, since
the root svg tag carries no fill attribute of its own, injects
`fill="#ff0000"` into the root tag, yielding
`<svg fill="#ff0000"><path fill="#ff0000"/></svg>`. -/
theorem themeSvgContent_example :
    themeSvgContent env0 "<svg><path fill=\"currentColor\"/></svg>"
        (some "#ff0000") =
      "<svg fill=\"#ff0000\"><path fill=\"#ff0000\"/></svg>" := by
  decide

/-- Claim C4: in the favicon fallback, a rejection of the `getLogoUrl`
collaborator is caught, stored as a negative (`null`) entry in the
logo-URL cache and returned as `null`; and whenever the logo-URL cache
already holds a value for the `(serviceUrl, provider)` key — including
a stored `null` — the stored value is returned without invoking the
collaborator (no `logo` event). -/
theorem faviconStep_error_and_negative_cache :
    (∀ (env : Env) (st : CacheState) (ck : String) (cfg : SourceConfig)
        (surl e : String),
      deriveServiceUrl cfg = some surl →
      logoUrlCacheGet st (surl ++ ":" ++ cfg.slug) = none →
      env.getLogoUrl surl cfg.slug = .error e →
      faviconStep env st cfg ck =
        ⟨none, logoUrlCacheSet st (surl ++ ":" ++ cfg.slug) none,
         [Event.logo surl cfg.slug]⟩) ∧
    (∀ (env : Env) (st : CacheState) (ck : String) (cfg : SourceConfig)
        (surl : String) (v : Option String),
      deriveServiceUrl cfg = some surl →
      logoUrlCacheGet st (surl ++ ":" ++ cfg.slug) = some v →
      (faviconStep env st cfg ck).res = v ∧
        (faviconStep env st cfg ck).events = []) := by
  constructor
  · intro env st ck cfg surl e hd hv hu
    exact faviconStep_fresh_err env st cfg ck surl e hd hv hu
  · intro env st ck cfg surl v hd hv
    rw [faviconStep_stored env st cfg ck surl v hd hv]
    by_cases ht : truthyOpt v = true
    · rw [if_pos ht]
      exact ⟨rfl, rfl⟩
    · rw [if_neg ht]
      exact ⟨rfl, rfl⟩

/-- Claim C4 witness: a rejecting lookup for the MCP fixture stores
the negative entry, and the follow-up call on the stored state returns
`null` with no collaborator call. -/
theorem faviconStep_error_and_negative_cache_witness :
    faviconStep env0 st0 cfgMcp "w:linear" =
      ⟨none, logoUrlCacheSet st0 ("https://api.linear.app" ++ ":" ++ cfgMcp.slug)
        none, [Event.logo "https://api.linear.app" cfgMcp.slug]⟩ ∧
    (faviconStep env0 (logoUrlCacheSet st0
        ("https://api.linear.app" ++ ":" ++ cfgMcp.slug) none)
      cfgMcp "w:linear").res = none ∧
    (faviconStep env0 (logoUrlCacheSet st0
        ("https://api.linear.app" ++ ":" ++ cfgMcp.slug) none)
      cfgMcp "w:linear").events = [] := by
  have h1 := faviconStep_error_and_negative_cache.1 env0 st0 "w:linear" cfgMcp
    "https://api.linear.app" "offline" (by decide) (by decide) rfl
  have h2 := faviconStep_error_and_negative_cache.2 env0
    (logoUrlCacheSet st0 ("https://api.linear.app" ++ ":" ++ cfgMcp.slug) none)
    "w:linear" cfgMcp "https://api.linear.app" none (by decide)
    (logoUrlCacheGet_set_self st0 _ none)
  exact ⟨h1, h2.1, h2.2⟩

/-- Claim C5 counterexample: `clearSourceIconCaches()` removes entries
from both stores (the `source:`-prefixed icon entries and the whole
logo-URL cache), so `clearIconCaches()` is not the only clear
operation doing so. -/
theorem clearSourceIconCaches_touches_both_cex :
    clearSourceIconCaches stBoth = ⟨[], []⟩ ∧
    stBoth.iconCache ≠ [] ∧ stBoth.logoUrlCache ≠ [] := by
  refine ⟨by decide, by decide, by decide⟩

/-- Claim C5 (amended): `source:`-prefixed icon-cache entries are
unchanged by `clearSkillIconCaches()`; `clearIconCaches()` empties
both stores entirely; `clearSourceIconCaches()` also removes entries
from both stores (it deletes exactly the `source:`-prefixed icon
entries and empties the whole logo-URL cache); the skill and status
clears never touch the logo-URL cache. -/
theorem cacheClear_isolation :
    (∀ (st : CacheState) (k : String), strStartsWith k "source:" = true →
      mapGet (clearSkillIconCaches st).iconCache k = mapGet st.iconCache k) ∧
    (∀ st : CacheState, clearIconCaches st = ⟨[], []⟩) ∧
    (∀ st : CacheState, (clearSourceIconCaches st).logoUrlCache = [] ∧
      (clearSourceIconCaches st).iconCache =
        st.iconCache.filter (fun kv => !(strStartsWith kv.1 "source:"))) ∧
    (∀ st : CacheState, (clearSkillIconCaches st).logoUrlCache = st.logoUrlCache ∧
      (clearStatusIconCaches st).logoUrlCache = st.logoUrlCache) := by
  refine ⟨?_, fun _ => rfl, fun _ => ⟨rfl, rfl⟩, fun _ => ⟨rfl, rfl⟩⟩
  intro st k hk
  unfold clearSkillIconCaches mapGet
  simp only
  rw [find?_filter_of_imp]
  intro x hx
  have hx' : x.1 = k := by simpa [beq_iff_eq] using hx
  rw [hx']
  unfold strStartsWith at hk ⊢
  simp [isPrefixOfList_source_not_skill k.data hk]

/-- Claim C5 witness: on a state holding a `source:` entry, a `skill:`
entry and a logo entry, the skill clear preserves the `source:` entry,
the global clear empties everything, and the source clear empties the
logo store. -/
theorem cacheClear_isolation_witness :
    mapGet (clearSkillIconCaches stW5).iconCache "source:a:b" =
      mapGet stW5.iconCache "source:a:b" ∧
    clearIconCaches stW5 = ⟨[], []⟩ ∧
    (clearSourceIconCaches stW5).logoUrlCache = [] ∧
    (clearSkillIconCaches stW5).logoUrlCache = stW5.logoUrlCache := by
  exact ⟨cacheClear_isolation.1 stW5 "source:a:b" (by decide),
    cacheClear_isolation.2.1 stW5,
    (cacheClear_isolation.2.2.1 stW5).1,
    (cacheClear_isolation.2.2.2 stW5).1⟩

/-- Fixture: an `mcp`-type source with no `mcp` record but a truthy
`api.baseUrl` (the respective URL field is absent, so no service URL
derives even though the other type's field is populated). -/
def cfgMcpNoUrl : SourceConfig :=
  ⟨"m", "m", "mcp", none, none, none, some ⟨some "https://api.example.com"⟩⟩

/-- Fixture: an `api`-type source with an empty `api.baseUrl` (falsy)
but a truthy `mcp.url`. -/
def cfgApiNoUrl : SourceConfig :=
  ⟨"n", "n", "api", none, none, some ⟨some "https://u"⟩, some ⟨some ""⟩⟩

/-- Claim C6: `deriveServiceUrl` returns `mcp.url` for `mcp`-type
sources with a truthy `mcp.url`, `api.baseUrl` for `api`-type sources
with a truthy `api.baseUrl`, and `null` for every other type, or when
the respective URL field is nullish or empty (an `mcp`-type source is
never served by `api.baseUrl` and vice versa); and when no service URL
is derived, step 5 resolves to `null` without touching the caches and
without invoking the favicon collaborator. -/
theorem deriveServiceUrl_spec :
    (∀ (cfg : SourceConfig) (u : String), cfg.type = "mcp" →
      cfg.mcp.bind McpConfig.url = some u → u ≠ "" →
      deriveServiceUrl cfg = some u) ∧
    (∀ (cfg : SourceConfig) (u : String), cfg.type = "api" →
      cfg.api.bind ApiConfig.baseUrl = some u → u ≠ "" →
      deriveServiceUrl cfg = some u) ∧
    (∀ cfg : SourceConfig, cfg.type ≠ "mcp" → cfg.type ≠ "api" →
      deriveServiceUrl cfg = none) ∧
    (∀ cfg : SourceConfig, cfg.type = "mcp" →
      truthyOpt (cfg.mcp.bind McpConfig.url) = false →
      deriveServiceUrl cfg = none) ∧
    (∀ cfg : SourceConfig, cfg.type = "api" →
      truthyOpt (cfg.api.bind ApiConfig.baseUrl) = false →
      deriveServiceUrl cfg = none) ∧
    (∀ cfg : SourceConfig, truthyOpt (cfg.mcp.bind McpConfig.url) = false →
      truthyOpt (cfg.api.bind ApiConfig.baseUrl) = false →
      deriveServiceUrl cfg = none) ∧
    (∀ (env : Env) (st : CacheState) (cfg : SourceConfig) (ck : String),
      deriveServiceUrl cfg = none →
      faviconStep env st cfg ck = ⟨none, st, []⟩) := by
  refine ⟨?_, ?_, ?_, ?_, ?_, ?_,
    fun env st cfg ck hd => faviconStep_none env st cfg ck hd⟩
  · intro cfg u ht hu hne
    unfold deriveServiceUrl
    rw [if_pos (by simp [ht, hu, truthyOpt, hne]), hu]
  · intro cfg u ht hu hne
    unfold deriveServiceUrl
    rw [if_neg (by simp [ht]), if_pos (by simp [ht, hu, truthyOpt, hne]), hu]
  · intro cfg h1 h2
    unfold deriveServiceUrl
    rw [if_neg (by simp [beq_iff_eq, h1]), if_neg (by simp [beq_iff_eq, h2])]
  · intro cfg ht h1
    unfold deriveServiceUrl
    rw [if_neg (by simp [h1]), if_neg (by simp [ht])]
  · intro cfg ht h1
    unfold deriveServiceUrl
    rw [if_neg (by simp [ht]), if_neg (by simp [h1])]
  · intro cfg h1 h2
    unfold deriveServiceUrl
    rw [if_neg (by simp [h1]), if_neg (by simp [h2])]

/-- Claim C6 witness: the MCP fixture derives its `mcp.url`, the API
fixture its `api.baseUrl`; the local fixture, the `mcp`-type fixture
with no `mcp.url` (despite a truthy `api.baseUrl`) and the `api`-type
fixture with an empty `api.baseUrl` (despite a truthy `mcp.url`) all
derive nothing; and step 5 returns `null` with no events. -/
theorem deriveServiceUrl_spec_witness :
    deriveServiceUrl cfgMcp = some "https://api.linear.app" ∧
    deriveServiceUrl cfgApi = some "https://api.example.com" ∧
    deriveServiceUrl cfgLocal = none ∧
    deriveServiceUrl cfgMcpNoUrl = none ∧
    deriveServiceUrl cfgApiNoUrl = none ∧
    faviconStep env0 st0 cfgLocal "k" = ⟨none, st0, []⟩ := by
  refine ⟨deriveServiceUrl_spec.1 cfgMcp _ rfl rfl (by decide),
    deriveServiceUrl_spec.2.1 cfgApi _ rfl rfl (by decide),
    deriveServiceUrl_spec.2.2.1 cfgLocal (by decide) (by decide),
    deriveServiceUrl_spec.2.2.2.1 cfgMcpNoUrl rfl (by decide),
    deriveServiceUrl_spec.2.2.2.2.1 cfgApiNoUrl rfl (by decide),
    deriveServiceUrl_spec.2.2.2.2.2.2 env0 st0 cfgLocal "k"
      (deriveServiceUrl_spec.2.2.1 cfgLocal (by decide) (by decide))⟩

/-- Claim C7 counterexample: for a root svg tag that carries
`fill="none"` together with `stroke="currentColor"`, the global
`currentColor` substitution rewrites the root tag's `stroke` value, so
the root tag's attributes are not left unchanged (although no fill is
injected). -/
theorem themeSvgContent_root_changed_cex :
    themeSvgContent env0 "<svg fill=\"none\" stroke=\"currentColor\"/>"
        (some "#ff0000") = "<svg fill=\"none\" stroke=\"#ff0000\"/>" ∧
    "<svg fill=\"none\" stroke=\"#ff0000\"/>"
      ≠ "<svg fill=\"none\" stroke=\"currentColor\"/>" := by
  refine ⟨by decide, by decide⟩

/-- Claim C7 (amended): whenever the first `<svg ...>` tag of the
`currentColor`-substituted document carries a fill attribute
(including `fill="none"`), no fill attribute is injected:
`themeSvgContent` returns exactly the substituted document (the root
tag changes only insofar as `currentColor` occurrences inside its
attribute values were substituted). -/
theorem themeSvgContent_no_injection (env : Env) (s color : String)
    (pre open4 attrs suffixAfter : List Char)
    (hf : findSvgTag (replaceCurrentColor color.data s.data) =
      some (pre, open4, attrs, suffixAfter))
    (ha : hasFillAttr attrs = true) :
    themeSvgContent env s (some color) =
      String.mk (replaceCurrentColor color.data s.data) := by
  unfold themeSvgContent
  simp only [Option.getD_some]
  rw [hf]
  simp only [ha, if_true]

/-- Claim C7 witness: a root tag with `fill="none"` is preserved
untouched (the document has no `currentColor`, so the substitution is
the identity). -/
theorem themeSvgContent_no_injection_witness :
    themeSvgContent env0 "<svg fill=\"none\"/>" (some "#ff0000") =
      String.mk (replaceCurrentColor "#ff0000".data "<svg fill=\"none\"/>".data) :=
  themeSvgContent_no_injection env0 "<svg fill=\"none\"/>" "#ff0000"
    [] "<svg".data " fill=\"none\"/".data [] (by decide) (by decide)

/-- Claim C8: when the skill's cache key holds no truthy entry and the
call fails — no `iconPath`, an `iconPath` not matching the
`skills/{slug}/{remainder}` pattern, or a rejecting file read —
`loadSkillIcon` returns `null` and leaves the cache state unchanged
(no icon-cache write), so a later call with corrected input can
succeed. -/
theorem loadSkillIcon_failure_no_cache (env : Env) (st : CacheState)
    (skill : SkillConfig) (workspaceId : String)
    (hc : truthyOpt (skillIconCacheGet st
      (workspaceId ++ ":" ++ skill.slug)) = false)
    (hf : skillResolveFails env skill workspaceId = true) :
    (loadSkillIcon env st skill workspaceId).res = none ∧
    (loadSkillIcon env st skill workspaceId).st = st := by
  rcases hip : skill.iconPath with - | p
  · unfold loadSkillIcon
    simp only [hip]
    exact ⟨trivial, trivial⟩
  · rcases hm : skillsMatch p.data with - | ⟨seg, tail⟩
    · unfold loadSkillIcon
      simp only [hip, hc, Bool.false_eq_true, if_false, hm]
      exact ⟨trivial, trivial⟩
    · rcases hr : env.readWorkspaceImage workspaceId
          ("skills/" ++ String.mk seg ++ "/" ++ String.mk tail) with e | r
      · unfold loadSkillIcon
        simp only [hip, hc, Bool.false_eq_true, if_false, hm, hr]
        exact ⟨trivial, trivial⟩
      · exfalso
        have hcontra : skillResolveFails env skill workspaceId = false := by
          simp only [skillResolveFails, hip, hm, hr]
        rw [hf] at hcontra
        exact Bool.noConfusion hcontra

/-- Claim C8 witness: a matching icon path whose file read rejects
yields `null` and an unchanged cache state. -/
theorem loadSkillIcon_failure_no_cache_witness :
    (loadSkillIcon env0 st0 skillW "w").res = none ∧
    (loadSkillIcon env0 st0 skillW "w").st = st0 :=
  loadSkillIcon_failure_no_cache env0 st0 skillW "w" (by decide) (by decide)

/-- Claim C9: a string every code point of which lacks the Unicode
`Emoji` property (in particular, every non-emoji ASCII string) of at
most 8 UTF-16 code units never passes `isEmoji`, and for a source so
configured the emoji branch of `loadSourceIcon` is never taken, for
every cache state and environment. -/
theorem nonEmoji_skips_emoji_branch (s : String)
    (hlen : utf16Length s ≤ 8)
    (hchars : ∀ c ∈ s.data, emojiProp c = false) :
    isEmoji s = false ∧
    ∀ (env : Env) (st : CacheState) (workspaceId : String)
      (cfg : SourceConfig), cfg.icon = some s →
      Event.emojiBranch ∉ (loadSourceIcon env st workspaceId cfg).events := by
  have hmatch : emojiMatch false s.data = false := by
    rcases hs : s.data with - | ⟨c, rest⟩
    · rfl
    · have hc : emojiProp c = false := hchars c (by rw [hs]; exact List.mem_cons_self c rest)
      have hp : emojiPresProp c = false := by
        have := Bool.or_eq_false_iff.mp (by rw [← emojiProp]; exact hc)
        exact this.1
      cases rest with
      | nil => simp [emojiMatch, hp, hc]
      | cons v rest2 => simp [emojiMatch, hp, hc]
  have hfalse : isEmoji s = false := by
    unfold isEmoji
    rw [hmatch, Bool.and_false]
  refine ⟨hfalse, fun env st workspaceId cfg hi hmem => ?_⟩
  have := loadSourceIcon_emojiBranch_mem env st workspaceId cfg hmem
  rw [hi] at this
  simp only [Option.getD_some] at this
  rw [hfalse] at this
  exact absurd this (by simp)

/-- Claim C9 witness: `"ab"` (2 UTF-16 units, no emoji code points) is
rejected by `isEmoji`, and resolving a source configured with it never
takes the emoji branch. -/
theorem nonEmoji_skips_emoji_branch_witness :
    isEmoji "ab" = false ∧
    Event.emojiBranch ∉ (loadSourceIcon env0 st0 "w" cfgAb).events := by
  have h := nonEmoji_skips_emoji_branch "ab" (by decide) (by decide)
  exact ⟨h.1, h.2 env0 st0 "w" cfgAb rfl⟩

/-- Claim C10: when the configured icon is defined but neither an
emoji (per `isEmoji`) nor a `./`-prefixed local path — e.g. a remote
URL — `loadSourceIcon` behaves exactly as if the icon field were
absent: the whole run (result, cache state, events) is identical, so
the icon string itself is never returned or cached from that branch
and resolution proceeds through auto-discovery and the favicon
fallback. -/
theorem urlIcon_resolves_as_absent (env : Env) (st : CacheState)
    (workspaceId : String) (cfg : SourceConfig) (i : String)
    (hi : cfg.icon = some i) (he : isEmoji i = false)
    (hdot : strStartsWith i "./" = false) :
    loadSourceIcon env st workspaceId cfg =
      loadSourceIcon env st workspaceId { cfg with icon := none } := by
  by_cases h0 : truthyOpt (sourceIconCacheGet st
      (workspaceId ++ ":" ++ cfg.slug)) = true
  · obtain ⟨w, hw, hne⟩ := truthyOpt_some _ h0
    rw [loadSourceIcon_hit env st workspaceId cfg w hw hne,
      loadSourceIcon_hit env st workspaceId { cfg with icon := none } w hw hne]
  · rw [Bool.not_eq_true] at h0
    rw [loadSourceIcon_auto_of_url env st workspaceId cfg i h0 hi he hdot,
      loadSourceIcon_auto_of_none env st workspaceId { cfg with icon := none }
        h0 rfl]
    rfl

/-- Claim C10 witness: a remote-URL icon resolves exactly as the same
configuration with no icon. -/
theorem urlIcon_resolves_as_absent_witness :
    loadSourceIcon env0 st0 "w" cfgUrl =
      loadSourceIcon env0 st0 "w" { cfgUrl with icon := none } :=
  urlIcon_resolves_as_absent env0 st0 "w" cfgUrl
    "https://example.com/icon.png" rfl (by decide) (by decide)

end IconCache
